import Mathlib

/-!
Verification development for the `massconf` network-automation tool
(`src/main.py` and `src/analyzer_modules/analyze_username_test.py`).

The per-device execution engine is shallowly embedded:

* A device session (`conn` in the Python code) is modelled as an oracle
  that answers each session call.  A call is identified by a
  `SessionEvent` (which call was made and with which arguments); the
  oracle sees the list of calls issued so far on the session (so
  responses may be history-dependent, i.e. the session may be stateful)
  and answers with either a textual result or a raised exception.
* Exceptions are the Scrapli exception taxonomy used by `main.py`:
  `ScrapliAuthenticationFailed`, `ScrapliTimeout`, other
  `ScrapliException`s, and any other Python exception (`general`).
  Python's `except` clauses match in source order, so the two specific
  Scrapli subclasses are caught before the generic `ScrapliException`
  clause; the embedding keeps them as separate constructors, mirroring
  which handler fires.
* `execute_logic`, `_prepare_session`, `_save_config`,
  `load_analyzer`, `DeviceManager.run` and the scheduler loop in
  `main` are translated function by function.  String predicates used
  by the Python code are modelled on the character list of the string:
  `pyStarts s p` models `s.startswith(p)`, `pyBlank s` models
  `not s.strip()`, `pyContains sub s` models `sub in s`.
-/

/-- Models Python `s.startswith(p)` (single-argument form). -/
def pyStarts (s p : String) : Bool :=
  p.data.isPrefixOf s.data

/-- Models Python `not s.strip()`: `s` is empty or all whitespace. -/
def pyBlank (s : String) : Bool :=
  s.data.all Char.isWhitespace

/-- Substring test on character lists, by structural recursion. -/
def infixCheck (needle : List Char) : List Char → Bool
  | [] => needle.isEmpty
  | c :: t => needle.isPrefixOf (c :: t) || infixCheck needle t

/-- Models Python `sub in s` (substring containment). -/
def pyContains (sub s : String) : Bool :=
  infixCheck sub.data s.data

/-- The tuple `PRIV_CMDS` from `main.py` (default settings):
read-only command verbs sent with `send_command`. -/
def PRIV_CMDS : List String :=
  ["show", "wr", "ping", "traceroute", "clear"]

/-- Models Python `cmd.startswith(PRIV_CMDS)` (tuple form: any prefix). -/
def pyStartsPriv (cmd : String) : Bool :=
  PRIV_CMDS.any (fun p => pyStarts cmd p)

/-- The four execution strategies of the spec's Command Classifier. -/
inductive Classification where
  | ConfirmInteractive
  | PromptInteractive
  | PrivilegedReadOnly
  | Configuration
deriving DecidableEq, Repr

/-- The classification a command receives in `execute_logic`
(src/main.py lines 86-115): the prefix tests in their source order. -/
def classify (cmd : String) : Classification :=
  if pyStarts cmd "no username" then .ConfirmInteractive
  else if pyStarts cmd "copy" then .PromptInteractive
  else if pyStartsPriv cmd then .PrivilegedReadOnly
  else .Configuration

/-- One call made on an open session, with its arguments, mirroring the
scrapli API surface that `main.py` uses. For `sendInteractive`, `steps`
is the scrapli `interact_events` list of `(channel_input,
expected_channel_output)` pairs, `priv` the `privilege_level` keyword
argument and `patterns` the `interaction_complete_patterns` keyword
argument (omitted keyword arguments are `none`). For `sendConfig`,
`strip` is the `strip_prompt` keyword and `priv` the
`privilege_level`. -/
inductive SessionEvent where
  | acquirePriv (level : String)
  | getPrompt
  | sendInteractive (steps : List (String × String)) (priv : Option String)
      (patterns : Option (List String))
  | sendCommand (cmd : String)
  | sendConfig (cmd : String) ( strip : Bool) (priv : String)
deriving DecidableEq, Repr

/-- The exceptions distinguished by the handlers in `DeviceManager.run`:
the two specific Scrapli exceptions, any other `ScrapliException`
(carrying the type name and message used to build the log string), and
any other Python exception (carrying its message). -/
inductive Exc where
  | scrapliAuthFailed
  | scrapliTimeout
  | scrapliOther (n det : String)
  | general (det : String)
deriving DecidableEq, Repr

/-- A device session: given the calls issued so far and the next call,
answer with a textual result or raise an exception. -/
def Oracle : Type :=
  List SessionEvent → SessionEvent → Except Exc String

/-- The `no username` branch of `execute_logic` (src/main.py 86-94):
`acquire_priv("configuration")`, `get_prompt()`, then
`send_interactive([(cmd, "[confirm]")], privilege_level="configuration",
interaction_complete_patterns=[prompt])`; appends the result and a
newline to the accumulated output and sets `config_changed = True`.
Returns the extended call trace and the result or the raised
exception. -/
def runConfirm (oracle : Oracle) (tr : List SessionEvent) (cmd acc : String) :
    List SessionEvent × Except Exc (String × Bool) :=
  let e1 := SessionEvent.acquirePriv "configuration"
  match oracle tr e1 with
  | .error ex => (tr ++ [e1], .error ex)
  | .ok _ =>
    let e2 := SessionEvent.getPrompt
    match oracle (tr ++ [e1]) e2 with
    | .error ex => (tr ++ [e1, e2], .error ex)
    | .ok prompt =>
      let e3 := SessionEvent.sendInteractive [(cmd, "[confirm]")]
        (some "configuration") (some [prompt])
      match oracle (tr ++ [e1, e2]) e3 with
      | .error ex => (tr ++ [e1, e2, e3], .error ex)
      | .ok res => (tr ++ [e1, e2, e3], .ok (acc ++ res ++ "\n", true))

/-- The `copy` branch of `execute_logic` (src/main.py 97-102):
`send_interactive([(cmd, "Destination filename"), ("\n", "[confirm]")])`;
appends the result and a newline; leaves `config_changed` unchanged. -/
def runCopy (oracle : Oracle) (tr : List SessionEvent) (cmd acc : String)
    (flag : Bool) : List SessionEvent × Except Exc (String × Bool) :=
  let ev := SessionEvent.sendInteractive
    [(cmd, "Destination filename"), ("\n", "[confirm]")] none none
  match oracle tr ev with
  | .error ex => (tr ++ [ev], .error ex)
  | .ok res => (tr ++ [ev], .ok (acc ++ res ++ "\n", flag))

/-- The read-only branch of `execute_logic` (src/main.py 105-107):
plain `send_command(cmd)`; appends the result and a newline; leaves
`config_changed` unchanged. -/
def runPriv (oracle : Oracle) (tr : List SessionEvent) (cmd acc : String)
    (flag : Bool) : List SessionEvent × Except Exc (String × Bool) :=
  let ev := SessionEvent.sendCommand cmd
  match oracle tr ev with
  | .error ex => (tr ++ [ev], .error ex)
  | .ok res => (tr ++ [ev], .ok (acc ++ res ++ "\n", flag))

/-- The configuration branch of `execute_logic` (src/main.py 110-115):
`send_config(cmd, strip_prompt=False, privilege_level="configuration")`;
appends the command itself, a newline, the result and a newline, and
sets `config_changed = True`. -/
def runConf (oracle : Oracle) (tr : List SessionEvent) (cmd acc : String) :
    List SessionEvent × Except Exc (String × Bool) :=
  let ev := SessionEvent.sendConfig cmd false "configuration"
  match oracle tr ev with
  | .error ex => (tr ++ [ev], .error ex)
  | .ok res => (tr ++ [ev], .ok (acc ++ cmd ++ "\n" ++ res ++ "\n", true))

/-- One non-blank command in the body of the `for` loop of
`execute_logic` (src/main.py 86-115): the `if`/`elif` chain on the
command's prefix, selecting one of the four branches. -/
def execStep (oracle : Oracle) (tr : List SessionEvent) (cmd acc : String)
    (flag : Bool) : List SessionEvent × Except Exc (String × Bool) :=
  if pyStarts cmd "no username" then runConfirm oracle tr cmd acc
  else if pyStarts cmd "copy" then runCopy oracle tr cmd acc flag
  else if pyStartsPriv cmd then runPriv oracle tr cmd acc flag
  else runConf oracle tr cmd acc

/-- The spec's Command Executor for an already classified command:
dispatch on a `Classification` value instead of re-testing prefixes.
Used to state that the inline `if`/`elif` chain of `execute_logic`
factors through `classify`. -/
def execByClass (oracle : Oracle) (tr : List SessionEvent) (cmd acc : String)
    (flag : Bool) : Classification → List SessionEvent × Except Exc (String × Bool)
  | .ConfirmInteractive => runConfirm oracle tr cmd acc
  | .PromptInteractive => runCopy oracle tr cmd acc flag
  | .PrivilegedReadOnly => runPriv oracle tr cmd acc flag
  | .Configuration => runConf oracle tr cmd acc

/-- `execute_logic` (src/main.py 77-117) as explicit state passing:
fold over the command list, skipping blank commands
(`if not cmd.strip(): continue`), threading the accumulated output
`acc` (`full_result`), the `config_changed` flag and the session call
trace; a raised exception aborts the loop and propagates. -/
def execute_logic (oracle : Oracle) (tr : List SessionEvent)
    (commands_to_run : List String) (acc : String) (flag : Bool) :
    List SessionEvent × Except Exc (String × Bool) :=
  match commands_to_run with
  | [] => (tr, .ok (acc, flag))
  | cmd :: rest =>
    if pyBlank cmd then execute_logic oracle tr rest acc flag
    else
      match execStep oracle tr cmd acc flag with
      | (tr1, .ok (acc1, flag1)) => execute_logic oracle tr1 rest acc1 flag1
      | (tr1, .error ex) => (tr1, .error ex)

/-- The example analyzer plugin
`src/analyzer_modules/analyze_username_test.py`: if the captured output
contains `"username test"`, return `["no username test"]`, else `[]`. -/
def analyze_username_test (host output : String) : List String :=
  let _ := host
  if pyContains "username test" output then ["no username test"] else []

/-- An analyzer binding as produced by `load_analyzer`.  Python is
dynamically typed, so the binding records the arity of the underlying
callable: `twoArg` for a function of `(host, output)` (the plugin's
`analyze` entry point, and the default no-op used when no analyzer is
configured), `threeArg` for a function of `(conn, host, output)` (the
fallback lambda on line 138 of src/main.py). -/
inductive AnalyzerBinding where
  | twoArg (f : String → String → List String)
  | threeArg (f : Unit → String → String → List String)

/-- Calling an analyzer binding with the two positional arguments used
at the call site `self.analyzer(self.host, output)` (src/main.py 201).
A `threeArg` binding called with two arguments raises `TypeError` —
this is Python call semantics, not a branch in the source. -/
def callAnalyzer2 (b : AnalyzerBinding) (host output : String) :
    Except Exc (List String) :=
  match b with
  | .twoArg f => .ok (f host output)
  | .threeArg _ =>
      .error (.general "TypeError: missing 1 required positional argument")

/-- `load_analyzer` (src/main.py 120-138).  Module import and the
`analyze` attribute lookup happen outside the embedded program;
`resolution` is their outcome: `.ok f` when
`analyzer_modules.<name>.analyze` exists, `.error msg` when the import
or the attribute lookup raised.  On error the function logs a warning
and returns the fallback `lambda conn, host, output: []` — a
THREE-parameter callable. -/
def load_analyzer (resolution : Except String (String → String → List String)) :
    AnalyzerBinding :=
  match resolution with
  | .ok f => .twoArg f
  | .error _ => .threeArg (fun _ _ _ => [])

/-- The driver classes distinguished by name in `_prepare_session` and
`_save_config`.  The default `DRIVERS` list holds the first two;
`ASADriver` appears only in the name comparisons. -/
inductive DriverClass where
  | IOSXEDriver
  | NXOSDriver
  | ASADriver
deriving DecidableEq, Repr

/-- `driver_class.__name__`, compared against string literals in
`_prepare_session` and `_save_config`. -/
def DriverClass.name : DriverClass → String
  | .IOSXEDriver => "IOSXEDriver"
  | .NXOSDriver => "NXOSDriver"
  | .ASADriver => "ASADriver"

/-- The default `DRIVERS` configuration (src/main.py 28). -/
def DRIVERS : List DriverClass := [.IOSXEDriver, .NXOSDriver]

/-- The state of one `DeviceManager` after `__init__`
(src/main.py 142-150): host, command list, the configured
`ANALYZER_MODULE` name (`analyze` attribute; empty string = no
analyzer), and the analyzer binding (`load_analyzer(name)` when a name
is configured, else the two-parameter no-op lambda of line 150). -/
structure DeviceManager where
  host : String
  commands : List String
  analyze : String
  analyzer : AnalyzerBinding

/-- `DeviceManager.__init__` (src/main.py 142-150), with the analyzer
resolution outcome supplied by the environment. -/
def DeviceManager.init (host : String) (commands : List String)
    (analyzerName : String)
    (resolution : Except String (String → String → List String)) :
    DeviceManager :=
  { host := host, commands := commands, analyze := analyzerName,
    analyzer :=
      if analyzerName ≠ "" then load_analyzer resolution
      else .twoArg (fun _ _ => []) }

/-- `_prepare_session` (src/main.py 152-171): pager/width setup and
privilege re-acquisition, the whole body wrapped in
`try: ... except Exception: log-and-swallow`, so a raised exception
stops the remaining preparation calls but never propagates.  Returns
the extended call trace only. -/
def prepare_session (oracle : Oracle) (tr : List SessionEvent)
    (driver : DriverClass) : List SessionEvent :=
  if driver.name = "ASADriver" then
    tr ++ [SessionEvent.sendCommand "terminal pager 0"]
  else
    let e1 := SessionEvent.sendCommand "terminal length 0"
    match oracle tr e1 with
    | .error _ => tr ++ [e1]
    | .ok _ =>
      let e2 := SessionEvent.sendCommand "terminal width 511"
      match oracle (tr ++ [e1]) e2 with
      | .error _ => tr ++ [e1, e2]
      | .ok _ => tr ++ [e1, e2, SessionEvent.acquirePriv "privilege_exec"]

/-- `_save_config` (src/main.py 173-187): one dialect-specific save
command, wrapped in `try ... except Exception`, so a failure is logged
and swallowed.  Returns the extended call trace only. -/
def save_config (tr : List SessionEvent) (driver : DriverClass) :
    List SessionEvent :=
  if driver.name = "NXOSDriver" then
    tr ++ [SessionEvent.sendCommand "copy running-config startup-config"]
  else if driver.name = "ASADriver" then
    tr ++ [SessionEvent.sendCommand "write memory"]
  else
    tr ++ [SessionEvent.sendCommand "write memory"]

/-- A successfully completed connected run on one driver: the final
output string logged by `SUCCESS`, the aggregate `config_changed`
flag, and whether `_save_config` was invoked. -/
structure BodyOk where
  output : String
  configChanged : Bool
  saveAttempted : Bool
deriving DecidableEq, Repr

/-- The analyzer phase of `DeviceManager.run` (src/main.py 200-206):
only entered when `self.analyze` is non-empty; calls the binding with
`(host, output)`; on a non-empty fix list runs `execute_logic` on it
and appends its output under the `--- ANALYZER FIX ---` marker, ORing
the changed flags. Exceptions from the call or from `execute_logic`
propagate. -/
def runAnalyzerPhase (oracle : Oracle) (dm : DeviceManager)
    (tr : List SessionEvent) (out : String) (changed : Bool) :
    List SessionEvent × Except Exc (String × Bool) :=
  if dm.analyze = "" then (tr, .ok (out, changed))
  else
    match callAnalyzer2 dm.analyzer dm.host out with
    | .error ex => (tr, .error ex)
    | .ok fixCommands =>
      if fixCommands.isEmpty then (tr, .ok (out, changed))
      else
        match execute_logic oracle tr fixCommands "" false with
        | (tr1, .error ex) => (tr1, .error ex)
        | (tr1, .ok (fixOut, fixChanged)) =>
          (tr1, .ok (out ++ "\n--- ANALYZER FIX ---\n" ++ fixOut,
                     changed || fixChanged))

/-- The body of the `with` block in `DeviceManager.run`
(src/main.py 196-211): preparer, primary batch, analyzer phase, then
`_save_config` if and only if the aggregate `config_changed` flag is
true; exceptions from the primary batch or the analyzer phase
propagate to the handlers of `run`. -/
def runBody (oracle : Oracle) (dm : DeviceManager) (driver : DriverClass) :
    List SessionEvent × Except Exc BodyOk :=
  let tr0 := prepare_session oracle [] driver
  match execute_logic oracle tr0 dm.commands "" false with
  | (tr1, .error ex) => (tr1, .error ex)
  | (tr1, .ok (out, changed)) =>
    match runAnalyzerPhase oracle dm tr1 out changed with
    | (tr2, .error ex) => (tr2, .error ex)
    | (tr2, .ok (out2, changed2)) =>
      if changed2 then (save_config tr2 driver, .ok ⟨out2, changed2, true⟩)
      else (tr2, .ok ⟨out2, changed2, false⟩)

/-- The per-driver environment of a run: whether opening the connection
(`driver_class(**device_dict).__enter__`) raises, and the session
oracle once connected. -/
structure RunEnv where
  connectExc : DriverClass → Option Exc
  oracle : DriverClass → Oracle

/-- One attempt of the `for driver_class in DRIVERS` loop: connection
failure yields the raised exception with an empty call trace,
otherwise the connected body runs. -/
def attempt (env : RunEnv) (dm : DeviceManager) (d : DriverClass) :
    List SessionEvent × Except Exc BodyOk :=
  match env.connectExc d with
  | some ex => ([], .error ex)
  | none => runBody (env.oracle d) dm d

/-- The terminal outcome of one device run: the `SUCCESS` log line's
payload, or the `FAILED` log line's `last_error` string. -/
inductive RunOutcome where
  | Success (output : String) (configChanged saveAttempted : Bool)
  | Failed (lastError : String)
deriving DecidableEq, Repr

/-- The result of `DeviceManager.run`: the terminal outcome plus, for
each driver attempted, the session calls issued during its attempt. -/
structure RunRes where
  outcome : RunOutcome
  attempts : List (DriverClass × List SessionEvent)
deriving DecidableEq, Repr

/-- The driver loop of `DeviceManager.run` (src/main.py 193-228) with
its four `except` clauses: `ScrapliAuthenticationFailed` sets
`last_error` and breaks; `ScrapliTimeout` and other `ScrapliException`s
set `last_error` and continue with the next driver; any other exception
sets `last_error` and breaks; falling off the loop logs `FAILED` with
`last_error`. -/
def runLoop (env : RunEnv) (dm : DeviceManager) :
    List DriverClass → String → List (DriverClass × List SessionEvent) → RunRes
  | [], lastError, acc => ⟨.Failed lastError, acc⟩
  | d :: rest, lastError, acc =>
    match attempt env dm d with
    | (tr, .ok b) =>
      ⟨.Success b.output b.configChanged b.saveAttempted, acc ++ [(d, tr)]⟩
    | (tr, .error .scrapliAuthFailed) =>
      ⟨.Failed "Authentication Failed", acc ++ [(d, tr)]⟩
    | (tr, .error .scrapliTimeout) =>
      runLoop env dm rest "Timeout (Check connectivity or Driver/Prompt)"
        (acc ++ [(d, tr)])
    | (tr, .error (.scrapliOther n det)) =>
      runLoop env dm rest ("Scrapli Error Type: " ++ n ++ ", Details: " ++ det)
        (acc ++ [(d, tr)])
    | (tr, .error (.general det)) =>
      ⟨.Failed ("General Error: " ++ det), acc ++ [(d, tr)]⟩

/-- `DeviceManager.run` (src/main.py 189-228) over the default
`DRIVERS` list, with `last_error` initialised to `"Unknown Error"`. -/
def runDM (env : RunEnv) (dm : DeviceManager) : RunRes :=
  runLoop env dm DRIVERS "Unknown Error" []

/-- The per-host terminal report of one run, as emitted by
`DeviceManager.run`: the main-log line (`SUCCESS: host\n output` on
line 208, or `FAILED: host - last_error` on line 227) and the lines
appended to the failed-hosts report (`failed_logger.error(self.host)`
on line 228, only on failure). -/
def hostLines (host : String) : RunOutcome → List String × List String
  | .Success out _ _ => (["SUCCESS: " ++ host ++ "\n" ++ out], [])
  | .Failed err => (["FAILED: " ++ host ++ " - " ++ err], [host])

/-- One completed future observed by the `as_completed` loop in `main`
(src/main.py 281-286): either `run()` returned (with its terminal
outcome), or an exception escaped `run()` and surfaces from
`future.result()`. -/
inductive Completion where
  | finished (host : String) (outcome : RunOutcome)
  | escaped (host : String) (msg : String)

/-- What one completed future contributes to (main log lines,
failed-hosts report lines): a finished run contributes the lines its
`run()` emitted; an escaped exception is caught by the
`except Exception` clause on line 285 and contributes only the
`logger.critical` line — nothing is written to the failed-hosts
report there. -/
def completionLines : Completion → List String × List String
  | .finished h o => hostLines h o
  | .escaped h m =>
    (["CRITICAL: Unhandled exception for " ++ h ++ ": " ++ m], [])

/-- The `as_completed` collection loop of `main` (src/main.py 281-286)
over the futures in completion order: every completion is processed,
`future.result()` is wrapped in `try ... except Exception`, and the
loop always proceeds to the next future. -/
def mainLoop : List Completion → List String × List String
  | [] => ([], [])
  | c :: rest =>
    let a := completionLines c
    let b := mainLoop rest
    (a.1 ++ b.1, a.2 ++ b.2)

/-- The log string built by each `except` clause of `DeviceManager.run`
for a raised exception. -/
def excMsg : Exc → String
  | .scrapliAuthFailed => "Authentication Failed"
  | .scrapliTimeout => "Timeout (Check connectivity or Driver/Prompt)"
  | .scrapliOther n det => "Scrapli Error Type: " ++ n ++ ", Details: " ++ det
  | .general det => "General Error: " ++ det

/-- Whether the handler for this exception continues with the next
driver (`continue`) rather than breaking out of the loop. -/
def retryable : Exc → Bool
  | .scrapliTimeout => true
  | .scrapliOther _ _ => true
  | _ => false

/-- An event that sends the command `cmd` to the device: a plain
command, a config command, or an interactive exchange whose first
channel input is `cmd`. -/
def sendsCmd (cmd : String) : SessionEvent → Bool
  | .sendCommand c => c == cmd
  | .sendConfig c _ _ => c == cmd
  | .sendInteractive steps _ _ =>
    match steps with
    | (inp, _) :: _ => inp == cmd
    | [] => false
  | _ => false

/-- `True` exactly for the two classifications whose executor branch
sets `config_changed = True` (src/main.py lines 94 and 115). -/
def setsChanged (c : String) : Bool :=
  match classify c with
  | .ConfirmInteractive => true
  | .Configuration => true
  | _ => false

/-- Session oracle for exercising the copy branch: every call answers
`"OK"`. -/
def wOr5 : Oracle := fun _ _ => .ok "OK"

/-- Session oracle answering `"ok"` to every call. -/
def wOr3 : Oracle := fun _ _ => .ok "ok"

/-- A device with one configuration command and no analyzer configured. -/
def wDM3 : DeviceManager :=
  DeviceManager.init "h1" ["interface gi0/1"] "" (.error "unused")

/-- An environment in which every driver rejects the credentials at
connection time. -/
def wEnvAuth : RunEnv :=
  { connectExc := fun _ => some .scrapliAuthFailed, oracle := fun _ _ _ => .ok "" }

/-- A device with one read-only command and no analyzer configured. -/
def wDM2 : DeviceManager :=
  DeviceManager.init "h2" ["show run"] "" (.error "unused")

/-- Session oracle whose `show run` output contains `username test`. -/
def wOr7 : Oracle := fun _ ev =>
  match ev with
  | .sendCommand c => if c == "show run" then .ok "username test secret" else .ok "done"
  | .getPrompt => .ok "sw1(config)#"
  | _ => .ok "done"

/-- A device configured with the `analyze_username_test` analyzer, whose
resolution succeeded. -/
def wDM7 : DeviceManager :=
  DeviceManager.init "h7" ["show run"] "analyze_username_test" (.ok analyze_username_test)

/-- Session oracle that answers the first four calls and raises
`ScrapliTimeout` on the fifth (i.e. mid-way through the primary
batch, after the three preparation calls and the first command). -/
def wOr9a : Oracle := fun tr _ => if tr.length >= 4 then .error .scrapliTimeout else .ok "ok"

/-- Session oracle answering `"ok"` to every call. -/
def wOr9b : Oracle := fun _ _ => .ok "ok"

/-- Environment in which both drivers connect, the first driver's
session times out mid-batch and the second driver's session works. -/
def wEnv9 : RunEnv :=
  { connectExc := fun _ => none,
    oracle := fun d => if d = .IOSXEDriver then wOr9a else wOr9b }

/-- A device with a configuration command followed by a read-only
command, no analyzer configured. -/
def wDM9 : DeviceManager :=
  DeviceManager.init "h9" ["interface gi0/1", "show run"] "" (.error "unused")

/-- The calls issued during the first (timed-out) attempt of `wEnv9`:
the configuration command was already sent before the timeout. -/
def wTr9a : List SessionEvent :=
  [.sendCommand "terminal length 0", .sendCommand "terminal width 511",
   .acquirePriv "privilege_exec",
   .sendConfig "interface gi0/1" false "configuration",
   .sendCommand "show run"]

/-- The calls issued during the second (successful) attempt of `wEnv9`:
the whole primary batch re-executed from the beginning, then the
NX-OS save command. -/
def wTr9b : List SessionEvent :=
  [.sendCommand "terminal length 0", .sendCommand "terminal width 511",
   .acquirePriv "privilege_exec",
   .sendConfig "interface gi0/1" false "configuration",
   .sendCommand "show run",
   .sendCommand "copy running-config startup-config"]

/-- Session oracle that raises `ScrapliTimeout` on the very first call
of the session (which is the preparation call `terminal length 0`)
and answers `"out"` afterwards. -/
def cexOr9 : Oracle := fun tr _ => if tr.isEmpty then .error .scrapliTimeout else .ok "out"

/-- Environment in which the first driver connects (but its session
times out on the first preparation call) and the second driver fails
authentication, so any attempt on it would be observable as a
terminal `Authentication Failed`. -/
def cexEnv9 : RunEnv :=
  { connectExc := fun d => if d = .NXOSDriver then some .scrapliAuthFailed else none,
    oracle := fun _ => cexOr9 }

/-- A device with one read-only command and no analyzer configured. -/
def cexDM9 : DeviceManager :=
  DeviceManager.init "h9c" ["show run"] "" (.error "unused")

/-- A device whose configured analyzer module does not exist, so
`load_analyzer` takes its fallback path and binds the three-parameter
no-op lambda. -/
def brokenDM : DeviceManager :=
  DeviceManager.init "device1" ["show run"] "missing_module"
    (.error "No module named analyzer_modules.missing_module")

/-- Environment in which the first driver connects and every session
call succeeds, answering `"plain"`. -/
def okEnv1 : RunEnv := { connectExc := fun _ => none, oracle := fun _ _ _ => .ok "plain" }

theorem execStep_eq_byClass (oracle : Oracle) (tr : List SessionEvent)
    (cmd acc : String) (flag : Bool) :
    execStep oracle tr cmd acc flag = execByClass oracle tr cmd acc flag (classify cmd) := by
  unfold execStep classify execByClass
  split_ifs <;> rfl

theorem runConfirm_pref (oracle : Oracle) (tr : List SessionEvent)
    (cmd acc : String) : tr <+: (runConfirm oracle tr cmd acc).1 := by
  unfold runConfirm
  dsimp only
  split
  · exact List.prefix_append _ _
  · split
    · exact List.prefix_append _ _
    · split <;> exact List.prefix_append _ _

theorem runCopy_pref (oracle : Oracle) (tr : List SessionEvent)
    (cmd acc : String) (flag : Bool) : tr <+: (runCopy oracle tr cmd acc flag).1 := by
  unfold runCopy
  dsimp only
  split <;> exact List.prefix_append _ _

theorem runPriv_pref (oracle : Oracle) (tr : List SessionEvent)
    (cmd acc : String) (flag : Bool) : tr <+: (runPriv oracle tr cmd acc flag).1 := by
  unfold runPriv
  dsimp only
  split <;> exact List.prefix_append _ _

theorem runConf_pref (oracle : Oracle) (tr : List SessionEvent)
    (cmd acc : String) : tr <+: (runConf oracle tr cmd acc).1 := by
  unfold runConf
  dsimp only
  split <;> exact List.prefix_append _ _

theorem execStep_pref (oracle : Oracle) (tr : List SessionEvent)
    (cmd acc : String) (flag : Bool) : tr <+: (execStep oracle tr cmd acc flag).1 := by
  unfold execStep
  split_ifs
  · exact runConfirm_pref ..
  · exact runCopy_pref ..
  · exact runPriv_pref ..
  · exact runConf_pref ..

theorem execute_logic_pref (oracle : Oracle) (cmds : List String) :
    ∀ (tr : List SessionEvent) (acc : String) (flag : Bool),
      tr <+: (execute_logic oracle tr cmds acc flag).1 := by
  induction cmds with
  | nil => intro tr acc flag; exact List.prefix_refl _
  | cons c rest ih =>
    intro tr acc flag
    unfold execute_logic
    by_cases hb : pyBlank c
    · simp only [hb, if_true]
      exact ih ..
    · simp only [hb, if_false, Bool.false_eq_true]
      rcases hS : execStep oracle tr c acc flag with ⟨tr1, r⟩
      have hpre : tr <+: tr1 := by
        have := execStep_pref oracle tr c acc flag
        rw [hS] at this
        exact this
      rcases r with ex | ⟨acc1, flag1⟩
      · exact hpre
      · exact hpre.trans (ih ..)

theorem runConfirm_ok_flag (oracle : Oracle) (tr : List SessionEvent)
    (cmd acc : String) (tr1 : List SessionEvent) (a : String) (b : Bool)
    (h : runConfirm oracle tr cmd acc = (tr1, .ok (a, b))) : b = true := by
  unfold runConfirm at h
  dsimp only at h
  split at h
  · simp_all
  · split at h
    · simp_all
    · split at h <;> simp_all

theorem runCopy_ok_flag (oracle : Oracle) (tr : List SessionEvent)
    (cmd acc : String) (flag : Bool) (tr1 : List SessionEvent) (a : String) (b : Bool)
    (h : runCopy oracle tr cmd acc flag = (tr1, .ok (a, b))) : b = flag := by
  unfold runCopy at h
  dsimp only at h
  split at h <;> simp_all

theorem runPriv_ok_flag (oracle : Oracle) (tr : List SessionEvent)
    (cmd acc : String) (flag : Bool) (tr1 : List SessionEvent) (a : String) (b : Bool)
    (h : runPriv oracle tr cmd acc flag = (tr1, .ok (a, b))) : b = flag := by
  unfold runPriv at h
  dsimp only at h
  split at h <;> simp_all

theorem runConf_ok_flag (oracle : Oracle) (tr : List SessionEvent)
    (cmd acc : String) (tr1 : List SessionEvent) (a : String) (b : Bool)
    (h : runConf oracle tr cmd acc = (tr1, .ok (a, b))) : b = true := by
  unfold runConf at h
  dsimp only at h
  split at h <;> simp_all

theorem execStep_ok_flag (oracle : Oracle) (tr : List SessionEvent)
    (cmd acc : String) (flag : Bool) (tr1 : List SessionEvent) (a : String) (b : Bool)
    (h : execStep oracle tr cmd acc flag = (tr1, .ok (a, b))) :
    b = (flag || setsChanged cmd) := by
  rw [execStep_eq_byClass] at h
  unfold setsChanged
  cases hc : classify cmd <;> rw [hc] at h <;> unfold execByClass at h <;> dsimp only
  · rw [runConfirm_ok_flag oracle tr cmd acc tr1 a b h]
    simp
  · rw [runCopy_ok_flag oracle tr cmd acc flag tr1 a b h]
    simp
  · rw [runPriv_ok_flag oracle tr cmd acc flag tr1 a b h]
    simp
  · rw [runConf_ok_flag oracle tr cmd acc tr1 a b h]
    simp

theorem execute_logic_ok_flag (oracle : Oracle) (cmds : List String) :
    ∀ (tr : List SessionEvent) (acc : String) (flag : Bool)
      (tr1 : List SessionEvent) (a : String) (b : Bool),
      execute_logic oracle tr cmds acc flag = (tr1, .ok (a, b)) →
      b = (flag || cmds.any (fun c => !pyBlank c && setsChanged c)) := by
  induction cmds with
  | nil =>
    intro tr acc flag tr1 a b h
    unfold execute_logic at h
    simp_all
  | cons c rest ih =>
    intro tr acc flag tr1 a b h
    unfold execute_logic at h
    by_cases hb : pyBlank c = true
    · rw [if_pos hb] at h
      have := ih tr acc flag tr1 a b h
      simp [List.any_cons, hb, this]
    · rw [if_neg hb] at h
      rcases hS : execStep oracle tr c acc flag with ⟨tr2, r⟩
      rw [hS] at h
      rcases r with ex | ⟨acc2, flag2⟩
      · simp at h
      · dsimp only at h
        have hstep := execStep_ok_flag oracle tr c acc flag tr2 acc2 flag2 hS
        have hrec := ih tr2 acc2 flag2 tr1 a b h
        have hbf : pyBlank c = false := by simp_all
        simp [hrec, hstep, List.any_cons, hbf, Bool.or_assoc]

theorem execStep_ok_sends (oracle : Oracle) (tr : List SessionEvent)
    (cmd acc : String) (flag : Bool) (tr1 : List SessionEvent) (p : String × Bool)
    (h : execStep oracle tr cmd acc flag = (tr1, .ok p)) :
    ∃ ev ∈ tr1, sendsCmd cmd ev = true := by
  unfold execStep at h
  split_ifs at h
  · unfold runConfirm at h
    dsimp only at h
    split at h
    · simp_all
    · split at h
      · simp_all
      · rename_i prompt heqp
        split at h
        · simp_all
        · injection h with h1 h2
          subst h1
          exact ⟨SessionEvent.sendInteractive [(cmd, "[confirm]")]
            (some "configuration") (some [prompt]), by simp, by simp [sendsCmd]⟩
  · unfold runCopy at h
    dsimp only at h
    split at h
    · simp_all
    · injection h with h1 h2
      subst h1
      exact ⟨SessionEvent.sendInteractive
        [(cmd, "Destination filename"), ("\n", "[confirm]")] none none,
        by simp, by simp [sendsCmd]⟩
  · unfold runPriv at h
    dsimp only at h
    split at h
    · simp_all
    · injection h with h1 h2
      subst h1
      exact ⟨SessionEvent.sendCommand cmd, by simp, by simp [sendsCmd]⟩
  · unfold runConf at h
    dsimp only at h
    split at h
    · simp_all
    · injection h with h1 h2
      subst h1
      exact ⟨SessionEvent.sendConfig cmd false "configuration",
        by simp, by simp [sendsCmd]⟩

theorem execute_logic_ok_sends (oracle : Oracle) (cmds : List String) :
    ∀ (tr : List SessionEvent) (acc : String) (flag : Bool)
      (tr1 : List SessionEvent) (p : String × Bool),
      execute_logic oracle tr cmds acc flag = (tr1, .ok p) →
      ∀ cmd ∈ cmds, pyBlank cmd = false → ∃ ev ∈ tr1, sendsCmd cmd ev = true := by
  induction cmds with
  | nil =>
    intro tr acc flag tr1 p h cmd hm
    simp at hm
  | cons c rest ih =>
    intro tr acc flag tr1 p h cmd hm hnb
    unfold execute_logic at h
    by_cases hb : pyBlank c = true
    · rw [if_pos hb] at h
      rcases List.mem_cons.mp hm with rfl | hm'
      · rw [hnb] at hb
        exact absurd hb (by simp)
      · exact ih tr acc flag tr1 p h cmd hm' hnb
    · rw [if_neg hb] at h
      rcases hS : execStep oracle tr c acc flag with ⟨tr2, r⟩
      rw [hS] at h
      rcases r with ex | ⟨acc2, flag2⟩
      · simp at h
      · dsimp only at h
        have h2F : tr2 <+: tr1 := by
          have := execute_logic_pref oracle rest tr2 acc2 flag2
          rw [h] at this
          exact this
        rcases List.mem_cons.mp hm with rfl | hm'
        · obtain ⟨ev, hev, hsend⟩ :=
            execStep_ok_sends oracle tr cmd acc flag tr2 (acc2, flag2) hS
          exact ⟨ev, h2F.subset hev, hsend⟩
        · exact ih tr2 acc2 flag2 tr1 p h cmd hm' hnb

theorem save_config_pref (tr : List SessionEvent) (d : DriverClass) :
    tr <+: save_config tr d := by
  unfold save_config
  split_ifs <;> exact List.prefix_append _ _

theorem runAnalyzerPhase_pref (oracle : Oracle) (dm : DeviceManager)
    (tr : List SessionEvent) (out : String) (changed : Bool) :
    tr <+: (runAnalyzerPhase oracle dm tr out changed).1 := by
  unfold runAnalyzerPhase
  split
  · exact List.prefix_refl _
  · split
    · exact List.prefix_refl _
    · split
      · exact List.prefix_refl _
      · rename_i fixCmds hcall hne
        rcases hE : execute_logic oracle tr fixCmds "" false with ⟨tr1, r⟩
        have hp := execute_logic_pref oracle fixCmds tr "" false
        rw [hE] at hp
        rcases r with ex | ⟨fixOut, fixChanged⟩ <;> exact hp

theorem runBody_ok_save (oracle : Oracle) (dm : DeviceManager) (d : DriverClass)
    (tr : List SessionEvent) (b : BodyOk)
    (h : runBody oracle dm d = (tr, .ok b)) :
    b.saveAttempted = b.configChanged := by
  unfold runBody at h
  dsimp only at h
  rcases hP : execute_logic oracle (prepare_session oracle [] d) dm.commands "" false
    with ⟨tr1, r1⟩
  rw [hP] at h
  rcases r1 with ex | ⟨out, changed⟩
  · simp at h
  · dsimp only at h
    rcases hA : runAnalyzerPhase oracle dm tr1 out changed with ⟨tr2, r2⟩
    rw [hA] at h
    rcases r2 with ex | ⟨out2, changed2⟩
    · simp at h
    · dsimp only at h
      split at h <;> injection h with h1 h2 <;> injection h2 with h3 <;> subst h3 <;> simp_all

theorem runBody_noAnalyzer_flag (oracle : Oracle) (dm : DeviceManager)
    (d : DriverClass) (tr : List SessionEvent) (b : BodyOk)
    (hA : dm.analyze = "") (h : runBody oracle dm d = (tr, .ok b)) :
    b.configChanged = dm.commands.any (fun c => !pyBlank c && setsChanged c) := by
  unfold runBody at h
  dsimp only at h
  rcases hP : execute_logic oracle (prepare_session oracle [] d) dm.commands "" false
    with ⟨tr1, r1⟩
  rw [hP] at h
  rcases r1 with ex | ⟨out, changed⟩
  · simp at h
  · dsimp only at h
    unfold runAnalyzerPhase at h
    rw [if_pos hA] at h
    dsimp only at h
    have hflag := execute_logic_ok_flag oracle dm.commands
      (prepare_session oracle [] d) "" false tr1 out changed hP
    split at h <;> injection h with h1 h2 <;> injection h2 with h3 <;> subst h3 <;>
      simp_all

theorem runBody_ok_sends (oracle : Oracle) (dm : DeviceManager)
    (d : DriverClass) (trF : List SessionEvent) (b : BodyOk)
    (h : runBody oracle dm d = (trF, .ok b)) :
    ∀ cmd ∈ dm.commands, pyBlank cmd = false → ∃ ev ∈ trF, sendsCmd cmd ev = true := by
  unfold runBody at h
  dsimp only at h
  rcases hP : execute_logic oracle (prepare_session oracle [] d) dm.commands "" false
    with ⟨tr1, r1⟩
  rw [hP] at h
  rcases r1 with ex | ⟨out, changed⟩
  · simp at h
  · dsimp only at h
    rcases hA : runAnalyzerPhase oracle dm tr1 out changed with ⟨tr2, r2⟩
    rw [hA] at h
    rcases r2 with ex | ⟨out2, changed2⟩
    · simp at h
    · dsimp only at h
      have h12 : tr1 <+: tr2 := by
        have := runAnalyzerPhase_pref oracle dm tr1 out changed
        rw [hA] at this
        exact this
      have h2F : tr2 <+: trF := by
        split at h <;> injection h with h1 h2
        · rw [← h1]
          exact save_config_pref tr2 d
        · rw [← h1]
      intro cmd hm hnb
      obtain ⟨ev, hev, hsend⟩ := execute_logic_ok_sends oracle dm.commands
        (prepare_session oracle [] d) "" false tr1 (out, changed) hP cmd hm hnb
      exact ⟨ev, (h12.trans h2F).subset hev, hsend⟩

theorem runLoop_retryStep (env : RunEnv) (dm : DeviceManager) (d : DriverClass)
    (rest : List DriverClass) (lastError : String)
    (acc : List (DriverClass × List SessionEvent)) (tr : List SessionEvent) (e : Exc)
    (hatt : attempt env dm d = (tr, .error e)) (hret : retryable e = true) :
    runLoop env dm (d :: rest) lastError acc =
      runLoop env dm rest (excMsg e) (acc ++ [(d, tr)]) := by
  rcases e with _ | _ | ⟨n, det⟩ | det
  · simp [retryable] at hret
  · conv_lhs => unfold runLoop
    rw [hatt]
    rfl
  · conv_lhs => unfold runLoop
    rw [hatt]
    rfl
  · simp [retryable] at hret

theorem runLoop_exhaust (env : RunEnv) (dm : DeviceManager) :
    ∀ (drivers : List DriverClass) (lastError : String)
      (acc : List (DriverClass × List SessionEvent))
      (d : DriverClass) (tr : List SessionEvent) (e : Exc),
      (∀ d2 ∈ drivers, ∃ tr2 e2, attempt env dm d2 = (tr2, .error e2) ∧ retryable e2 = true) →
      drivers.getLast? = some d →
      attempt env dm d = (tr, .error e) →
      (runLoop env dm drivers lastError acc).outcome = .Failed (excMsg e) := by
  intro drivers
  induction drivers with
  | nil =>
    intro lastError acc d tr e _ hlast
    simp at hlast
  | cons dd rest ih =>
    intro lastError acc d tr e hall hlast hatt
    obtain ⟨trd, ed, hattd, hretd⟩ := hall dd (by simp)
    rw [runLoop_retryStep env dm dd rest lastError acc trd ed hattd hretd]
    rcases rest with _ | ⟨r, rs⟩
    · simp at hlast
      subst hlast
      rw [hattd] at hatt
      injection hatt with h1 h2
      injection h2 with h3
      subst h3
      rfl
    · have hlast' : (r :: rs).getLast? = some d := by
        simpa [List.getLast?] using hlast
      exact ih (excMsg ed) (acc ++ [(dd, trd)]) d tr e
        (fun d2 hd2 => hall d2 (by simp [hd2])) hlast' hatt

/-- Claim C10: the executor itself skips blank commands — for every
command list, `execute_logic` returns the same (trace, output,
config-changed) result as on the list with empty or whitespace-only
entries removed; a blank entry is never classified, never sent to the
device, and leaves the accumulated output and the flag unchanged.
This holds for any command list, in particular for analyzer-produced
fix commands, which bypass the upstream file-loading filter. -/
theorem C10_executor_skips_blank (oracle : Oracle) (cmds : List String) :
    ∀ (tr : List SessionEvent) (acc : String) (flag : Bool),
      execute_logic oracle tr cmds acc flag =
        execute_logic oracle tr (cmds.filter (fun c => !pyBlank c)) acc flag := by
  induction cmds with
  | nil => intro tr acc flag; rfl
  | cons c rest ih =>
    intro tr acc flag
    by_cases hb : pyBlank c = true
    · have hf : (c :: rest).filter (fun c => !pyBlank c) =
          rest.filter (fun c => !pyBlank c) := by
        simp [List.filter_cons, hb]
      rw [hf]
      conv_lhs => unfold execute_logic
      rw [if_pos hb]
      exact ih tr acc flag
    · have hf : (c :: rest).filter (fun c => !pyBlank c) =
          c :: rest.filter (fun c => !pyBlank c) := by
        simp [List.filter_cons, hb]
      rw [hf]
      conv_lhs => unfold execute_logic
      conv_rhs => unfold execute_logic
      rw [if_neg hb, if_neg hb]
      rcases hS : execStep oracle tr c acc flag with ⟨tr1, r⟩
      rcases r with ex | ⟨acc1, flag1⟩
      · rfl
      · exact ih tr1 acc1 flag1

/-- Claim C8: command classification is deterministic and stateless:
the branch `execute_logic` takes for a command factors through the
pure function `classify` of the command string alone — independent of
the session oracle, the call history, the accumulated output and the
incoming flag — and `classify` itself depends only on the string's
prefix tests, so identical prefix behaviour gives identical
classification. -/
theorem C8_classification_pure :
    (∀ (oracle : Oracle) (tr : List SessionEvent) (cmd acc : String) (flag : Bool),
      execStep oracle tr cmd acc flag =
        execByClass oracle tr cmd acc flag (classify cmd)) ∧
    (∀ s t : String,
      pyStarts s "no username" = pyStarts t "no username" →
      pyStarts s "copy" = pyStarts t "copy" →
      pyStartsPriv s = pyStartsPriv t →
      classify s = classify t) := by
  constructor
  · exact execStep_eq_byClass
  · intro s t h1 h2 h3
    unfold classify
    rw [h1, h2, h3]

theorem C8_classification_pure_witness :
    execStep wOr5 [] "show run" "" false =
      execByClass wOr5 [] "show run" "" false (classify "show run") ∧
    classify "show clock" = classify "show version" :=
  ⟨C8_classification_pure.1 wOr5 [] "show run" "" false,
   C8_classification_pure.2 "show clock" "show version"
     (by decide) (by decide) (by decide)⟩

/-- Claim C6: for every non-empty command string, classification
follows the stated priority order with no error path: prefix
`"no username"` yields `ConfirmInteractive`; otherwise prefix `"copy"`
yields `PromptInteractive`; otherwise a prefix in the configured
read-only verb set (`PRIV_CMDS`) yields `PrivilegedReadOnly`;
otherwise `Configuration`.  In particular, `"no username test"` is
`ConfirmInteractive`, `"copy run start"` is `PromptInteractive`,
`"show run"` is `PrivilegedReadOnly` and `"interface gi0/1"` is
`Configuration`. -/
theorem C6_classifier_priority :
    (∀ cmd, pyStarts cmd "no username" = true → classify cmd = .ConfirmInteractive) ∧
    (∀ cmd, pyStarts cmd "no username" = false → pyStarts cmd "copy" = true →
      classify cmd = .PromptInteractive) ∧
    (∀ cmd, pyStarts cmd "no username" = false → pyStarts cmd "copy" = false →
      pyStartsPriv cmd = true → classify cmd = .PrivilegedReadOnly) ∧
    (∀ cmd, pyStarts cmd "no username" = false → pyStarts cmd "copy" = false →
      pyStartsPriv cmd = false → classify cmd = .Configuration) ∧
    classify "no username test" = .ConfirmInteractive ∧
    classify "copy run start" = .PromptInteractive ∧
    classify "show run" = .PrivilegedReadOnly ∧
    classify "interface gi0/1" = .Configuration := by
  refine ⟨?_, ?_, ?_, ?_, by decide, by decide, by decide, by decide⟩
  · intro cmd h1
    simp [classify, h1]
  · intro cmd h1 h2
    simp [classify, h1, h2]
  · intro cmd h1 h2 h3
    simp [classify, h1, h2, h3]
  · intro cmd h1 h2 h3
    simp [classify, h1, h2, h3]

theorem C6_classifier_priority_witness :
    classify "no username operator15" = Classification.ConfirmInteractive :=
  C6_classifier_priority.1 "no username operator15" (by decide)

/-- Claim C5: for every command classified `PromptInteractive` (prefix
`"copy"`), the executor issues one `send_interactive` call whose
interaction steps are exactly the two pairs
`(cmd, "Destination filename")` and `("\n", "[confirm]")` — the
command's own text paired with the destination-filename prompt,
followed by the final confirmation prompt — and the config-changed
flag is returned unchanged. -/
theorem C5_copy_prompt_interactive (oracle : Oracle) (tr : List SessionEvent)
    (cmd acc : String) (flag : Bool) (res : String)
    (hclass : classify cmd = .PromptInteractive)
    (hok : oracle tr (SessionEvent.sendInteractive
      [(cmd, "Destination filename"), ("\n", "[confirm]")] none none) = .ok res) :
    execStep oracle tr cmd acc flag =
      (tr ++ [SessionEvent.sendInteractive
        [(cmd, "Destination filename"), ("\n", "[confirm]")] none none],
       .ok (acc ++ res ++ "\n", flag)) := by
  unfold classify at hclass
  split_ifs at hclass with h1 h2
  unfold execStep
  rw [if_neg h1, if_pos h2]
  unfold runCopy
  dsimp only
  rw [hok]

theorem C5_copy_prompt_interactive_witness :
    execStep wOr5 [] "copy run start" "" false =
      ([SessionEvent.sendInteractive
        [("copy run start", "Destination filename"), ("\n", "[confirm]")] none none],
       .ok ("OK\n", false)) :=
  C5_copy_prompt_interactive wOr5 [] "copy run start" "" false "OK" (by decide) rfl

theorem setsChanged_iff (c : String) :
    setsChanged c = true ↔
      (classify c = .Configuration ∨ classify c = .ConfirmInteractive) := by
  unfold setsChanged
  rcases classify c <;> simp

/-- Claim C3: the save-configuration step is attempted if and only if
the run's aggregate config-changed flag is true at the end of the
connected run; and (for a run without a configured analyzer) that flag
is true exactly when the batch contains a non-blank `Configuration` or
`ConfirmInteractive` command — so a batch of only `PrivilegedReadOnly`
and/or `PromptInteractive` commands never triggers a save, and any
`Configuration` or `ConfirmInteractive` command always does. -/
theorem C3_save_iff_config_changed (oracle : Oracle) (dm : DeviceManager)
    (driver : DriverClass) (b : BodyOk)
    (h : (runBody oracle dm driver).2 = .ok b) :
    (b.saveAttempted = true ↔ b.configChanged = true) ∧
    (dm.analyze = "" →
      (b.configChanged = true ↔ ∃ c ∈ dm.commands, pyBlank c = false ∧
        (classify c = .Configuration ∨ classify c = .ConfirmInteractive))) := by
  have hpair : runBody oracle dm driver = ((runBody oracle dm driver).1, .ok b) := by
    rw [← h]
  constructor
  · rw [runBody_ok_save oracle dm driver _ b hpair]
  · intro hA
    rw [runBody_noAnalyzer_flag oracle dm driver _ b hA hpair]
    rw [List.any_eq_true]
    constructor
    · rintro ⟨c, hc, hcc⟩
      rw [Bool.and_eq_true, Bool.not_eq_true'] at hcc
      exact ⟨c, hc, hcc.1, (setsChanged_iff c).mp hcc.2⟩
    · rintro ⟨c, hc, hnb, hcl⟩
      refine ⟨c, hc, ?_⟩
      rw [Bool.and_eq_true, Bool.not_eq_true']
      exact ⟨hnb, (setsChanged_iff c).mpr hcl⟩

theorem C3_save_iff_config_changed_witness :
    ((BodyOk.mk "interface gi0/1\nok\n" true true).saveAttempted = true ↔
      (BodyOk.mk "interface gi0/1\nok\n" true true).configChanged = true) :=
  (C3_save_iff_config_changed wOr3 wDM3 .IOSXEDriver
    ⟨"interface gi0/1\nok\n", true, true⟩ rfl).1

/-- Claim C2: the driver-fallback policy of `DeviceManager.run`:
iterating the configured driver list in order, an authentication
failure terminates the run as `Failed "Authentication Failed"` without
attempting any remaining driver; a timeout and a Scrapli protocol
error each record their reason and advance to the next driver; any
other unclassified exception terminates the run as `Failed` with a
`General Error` reason without trying remaining drivers; and if every
driver fails with a retryable error, the run is `Failed` with the
reason recorded for the last driver. -/
theorem C2_driver_fallback_policy :
    (∀ (env : RunEnv) (dm : DeviceManager) (d : DriverClass)
      (rest : List DriverClass) (lastError : String)
      (acc : List (DriverClass × List SessionEvent)) (tr : List SessionEvent),
      attempt env dm d = (tr, .error .scrapliAuthFailed) →
      runLoop env dm (d :: rest) lastError acc =
        ⟨.Failed "Authentication Failed", acc ++ [(d, tr)]⟩) ∧
    (∀ (env : RunEnv) (dm : DeviceManager) (d : DriverClass)
      (rest : List DriverClass) (lastError : String)
      (acc : List (DriverClass × List SessionEvent)) (tr : List SessionEvent),
      attempt env dm d = (tr, .error .scrapliTimeout) →
      runLoop env dm (d :: rest) lastError acc =
        runLoop env dm rest "Timeout (Check connectivity or Driver/Prompt)"
          (acc ++ [(d, tr)])) ∧
    (∀ (env : RunEnv) (dm : DeviceManager) (d : DriverClass)
      (rest : List DriverClass) (lastError : String)
      (acc : List (DriverClass × List SessionEvent)) (tr : List SessionEvent)
      (n det : String),
      attempt env dm d = (tr, .error (.scrapliOther n det)) →
      runLoop env dm (d :: rest) lastError acc =
        runLoop env dm rest ("Scrapli Error Type: " ++ n ++ ", Details: " ++ det)
          (acc ++ [(d, tr)])) ∧
    (∀ (env : RunEnv) (dm : DeviceManager) (d : DriverClass)
      (rest : List DriverClass) (lastError : String)
      (acc : List (DriverClass × List SessionEvent)) (tr : List SessionEvent)
      (det : String),
      attempt env dm d = (tr, .error (.general det)) →
      runLoop env dm (d :: rest) lastError acc =
        ⟨.Failed ("General Error: " ++ det), acc ++ [(d, tr)]⟩) ∧
    (∀ (env : RunEnv) (dm : DeviceManager) (drivers : List DriverClass)
      (lastError : String) (acc : List (DriverClass × List SessionEvent))
      (d : DriverClass) (tr : List SessionEvent) (e : Exc),
      (∀ d2 ∈ drivers, ∃ tr2 e2,
        attempt env dm d2 = (tr2, .error e2) ∧ retryable e2 = true) →
      drivers.getLast? = some d →
      attempt env dm d = (tr, .error e) →
      (runLoop env dm drivers lastError acc).outcome = .Failed (excMsg e)) := by
  refine ⟨?_, ?_, ?_, ?_, ?_⟩
  · intro env dm d rest lastError acc tr hatt
    conv_lhs => unfold runLoop
    rw [hatt]
  · intro env dm d rest lastError acc tr hatt
    exact runLoop_retryStep env dm d rest lastError acc tr _ hatt rfl
  · intro env dm d rest lastError acc tr n det hatt
    exact runLoop_retryStep env dm d rest lastError acc tr _ hatt rfl
  · intro env dm d rest lastError acc tr det hatt
    conv_lhs => unfold runLoop
    rw [hatt]
  · intro env dm drivers lastError acc d tr e hall hlast hatt
    exact runLoop_exhaust env dm drivers lastError acc d tr e hall hlast hatt

theorem C2_driver_fallback_policy_witness :
    runLoop wEnvAuth wDM2 [.IOSXEDriver, .NXOSDriver] "Unknown Error" [] =
      ⟨.Failed "Authentication Failed", [(.IOSXEDriver, [])]⟩ :=
  C2_driver_fallback_policy.1 wEnvAuth wDM2 .IOSXEDriver [.NXOSDriver]
    "Unknown Error" [] [] rfl

/-- Claim C7: if the bound analyzer (a correctly resolved two-parameter
binding), given the host and the primary batch's full captured output,
returns a non-empty command sequence, the connected run executes that
sequence as a second batch through `execute_logic` on the same session
(continuing the same call trace), appends its output after the primary
output under the `--- ANALYZER FIX ---` marker, and ORs its
config-changed flag into the run's aggregate flag — which also gates
the save step. -/
theorem C7_analyzer_fix_batch (oracle : Oracle) (dm : DeviceManager)
    (driver : DriverClass) (f : String → String → List String)
    (out fixOut : String) (changed fixChanged : Bool)
    (hname : dm.analyze ≠ "")
    (hbind : dm.analyzer = .twoArg f)
    (hPrim : (execute_logic oracle (prepare_session oracle [] driver)
      dm.commands "" false).2 = .ok (out, changed))
    (hfix : f dm.host out ≠ [])
    (hFixRun : (execute_logic oracle
      (execute_logic oracle (prepare_session oracle [] driver) dm.commands "" false).1
      (f dm.host out) "" false).2 = .ok (fixOut, fixChanged)) :
    (runBody oracle dm driver).2 =
      .ok ⟨out ++ "\n--- ANALYZER FIX ---\n" ++ fixOut,
           changed || fixChanged, changed || fixChanged⟩ := by
  unfold runBody
  dsimp only
  rcases hP : execute_logic oracle (prepare_session oracle [] driver)
      dm.commands "" false with ⟨tr1, r1⟩
  rw [hP] at hPrim hFixRun
  have hr1 : r1 = Except.ok (out, changed) := hPrim
  subst hr1
  have hFix2 : (execute_logic oracle tr1 (f dm.host out) "" false).2 =
      Except.ok (fixOut, fixChanged) := hFixRun
  dsimp only
  unfold runAnalyzerPhase
  rw [if_neg hname, hbind]
  unfold callAnalyzer2
  dsimp only
  have hfe : (f dm.host out).isEmpty = false := by
    rcases hl : f dm.host out with _ | ⟨x, xs⟩
    · exact absurd hl hfix
    · rfl
  rw [if_neg (show ¬((f dm.host out).isEmpty = true) by simp [hfe])]
  rcases hF : execute_logic oracle tr1 (f dm.host out) "" false with ⟨tr2, r2⟩
  rw [hF] at hFix2
  have hr2 : r2 = Except.ok (fixOut, fixChanged) := hFix2
  subst hr2
  dsimp only
  rcases hcf : changed || fixChanged
  · rw [if_neg (by simp)]
  · rw [if_pos rfl]

theorem C7_analyzer_fix_batch_witness :
    (runBody wOr7 wDM7 .IOSXEDriver).2 =
      .ok ⟨"username test secret\n" ++ "\n--- ANALYZER FIX ---\n" ++ "done\n",
           false || true, false || true⟩ :=
  C7_analyzer_fix_batch wOr7 wDM7 .IOSXEDriver analyze_username_test
    "username test secret\n" "done\n" false true
    (by decide) rfl rfl (by decide) rfl

/-- Claim C9 (amended): the driver-retry handlers enclose the whole
connected run EXCEPT `_prepare_session` and `_save_config`, which
swallow their own errors.  If the attempt on one driver raises a
retryable error (timeout or other Scrapli error) — in particular
mid-way through the primary batch, after some commands have already
been sent — and the next driver's attempt succeeds, the run succeeds
on that next driver and its session receives the entire primary batch
from the beginning: every non-blank configured command, including any
already sent during the failed attempt, is sent again. -/
theorem C9_retry_reexecutes_batch (env : RunEnv) (dm : DeviceManager)
    (d0 d1 : DriverClass) (tr0 tr1 : List SessionEvent) (e : Exc) (b : BodyOk)
    (hfail : attempt env dm d0 = (tr0, .error e))
    (hret : retryable e = true)
    (hok : attempt env dm d1 = (tr1, .ok b)) :
    runLoop env dm [d0, d1] "Unknown Error" [] =
      ⟨.Success b.output b.configChanged b.saveAttempted, [(d0, tr0), (d1, tr1)]⟩ ∧
    (∀ cmd ∈ dm.commands, pyBlank cmd = false →
      ∃ ev ∈ tr1, sendsCmd cmd ev = true) := by
  constructor
  · rw [runLoop_retryStep env dm d0 [d1] "Unknown Error" [] tr0 e hfail hret]
    conv_lhs => unfold runLoop
    rw [hok]
    rfl
  · unfold attempt at hok
    rcases hc : env.connectExc d1 with _ | ex
    · rw [hc] at hok
      dsimp only at hok
      exact runBody_ok_sends (env.oracle d1) dm d1 tr1 b hok
    · rw [hc] at hok
      simp at hok

theorem C9_retry_reexecutes_batch_witness :
    runLoop wEnv9 wDM9 [.IOSXEDriver, .NXOSDriver] "Unknown Error" [] =
      ⟨.Success "interface gi0/1\nok\nok\n" true true,
       [(.IOSXEDriver, wTr9a), (.NXOSDriver, wTr9b)]⟩ :=
  (C9_retry_reexecutes_batch wEnv9 wDM9 .IOSXEDriver .NXOSDriver wTr9a wTr9b
    .scrapliTimeout ⟨"interface gi0/1\nok\nok\n", true, true⟩ rfl rfl rfl).1

/-- Claim C9 as stated is false for session preparation: here the first
driver's session raises `ScrapliTimeout` on its very first call, which
is the preparation command `terminal length 0`, issued after a
successful connection — yet the run does NOT advance to the next
driver: `_prepare_session` swallows the exception, the run completes
successfully on the same first driver, and the second driver (whose
attempt would be observable as `Failed "Authentication Failed"`) is
never attempted. -/
theorem C9_counterexample_prep_swallows :
    cexOr9 [] (SessionEvent.sendCommand "terminal length 0") =
      .error .scrapliTimeout ∧
    runDM cexEnv9 cexDM9 =
      ⟨.Success "out\n" false false,
       [(.IOSXEDriver, [SessionEvent.sendCommand "terminal length 0",
                        SessionEvent.sendCommand "show run"])]⟩ :=
  ⟨rfl, rfl⟩

/-- Claim C1 is contradicted by the code: with a configured analyzer
name whose resolution fails, `load_analyzer` returns the fallback
`lambda conn, host, output: []` — a three-parameter callable — which
`run` then calls with only two arguments, raising `TypeError`; the
generic `except Exception` handler makes the run terminally `Failed`
with a `General Error` instead of completing as a `Success` with no
remediation commands.  Evaluated here at a concrete failing input:
every session call succeeds, yet the run is `Failed`. -/
theorem C1_fallback_binding_fails_run :
    runDM okEnv1 brokenDM =
      ⟨.Failed "General Error: TypeError: missing 1 required positional argument",
       [(.IOSXEDriver,
         [SessionEvent.sendCommand "terminal length 0",
          SessionEvent.sendCommand "terminal width 511",
          SessionEvent.acquirePriv "privilege_exec",
          SessionEvent.sendCommand "show run"])]⟩ :=
  rfl

/-- Claim C4 (amended): the fleet scheduler's collection loop is the
outermost error boundary: an error escaping a single run's future is
caught by the `except Exception` clause, logged as a per-host
CRITICAL line, and never propagates or prevents any other completed
run's lines from being reported — but it is recorded only in the main
log: it contributes nothing to the failed-hosts report and is not
formatted as a `FAILED` outcome line. -/
theorem C4_scheduler_boundary (pre post : List Completion) (h m : String) :
    mainLoop (pre ++ Completion.escaped h m :: post) =
      ((mainLoop pre).1 ++
        ("CRITICAL: Unhandled exception for " ++ h ++ ": " ++ m) :: (mainLoop post).1,
       (mainLoop pre).2 ++ (mainLoop post).2) := by
  induction pre with
  | nil => rfl
  | cons c pre ih =>
    simp only [List.cons_append, mainLoop, List.append_eq]
    rw [ih]
    simp [List.append_assoc]

/-- Claim C4 as stated is false on the failed-hosts report: a host
whose run escapes with an exception contributes only the CRITICAL log
line; the failed-hosts report (second component) stays empty — there
is no line for `host1` — while the other host's completion is still
reported. -/
theorem C4_counterexample_no_failed_line :
    mainLoop [Completion.escaped "host1" "boom",
              Completion.finished "host2" (.Success "all good" false false)] =
      (["CRITICAL: Unhandled exception for host1: boom",
        "SUCCESS: host2\nall good"], []) :=
  rfl
